import Mathlib

/-!
Verification of the machine-lifecycle translation engine of the
machine-controller-manager-provider-kubevirt repository.

The Go sources are shallowly embedded: pure builder functions from
`pkg/kubevirt/core/util.go` become Lean functions, the stateful lifecycle
operations from `pkg/kubevirt/core/core.go` are modelled against an explicit
client whose responses are part of the input, and Go's `(value, error)`
return convention becomes a pair with an `Option` error component.
Go maps are modelled as association lists, Go strings as Lean `String`,
and machine integers as `Nat` (no overflow is reachable in this code).
-/

namespace MCMKubevirt

/-! ### String helpers modelling the Go standard library -/

/-- Decimal rendering of a natural number, modelling `strconv.Itoa` (and
`fmt.Sprintf` with the `%d` verb) for the non-negative values that occur here.
`Nat.digits 10 n` is the little-endian digit list, so the most significant
digit comes first after `reverse`; `strconv.Itoa 0 = "0"` is special-cased
exactly as in the library. -/
def itoa (n : Nat) : String :=
  if n = 0 then "0"
  else ((Nat.digits 10 n).reverse.map fun d => Char.ofNat (48 + d)).asString

/-- Substring test, modelling `strings.Contains(s, substr)`. -/
def goContains (s substr : String) : Bool :=
  decide (substr.data <:+: s.data)

/-- Whitespace trimming, modelling `strings.TrimSpace`. -/
def goTrimSpace (s : String) : String :=
  ((s.data.dropWhile Char.isWhitespace).reverse.dropWhile Char.isWhitespace).reverse.asString

/-! ### Provider constants and provider IDs (`pkg/kubevirt/core/core.go`, `util.go`) -/

/-- `ProviderName` from `core.go`. -/
def ProviderName : String := "kubevirt"

/-- `encodeProviderID` from `util.go`: the empty machine name maps to the
empty string, any other machine name to `<ProviderName>://<machineName>`. -/
def encodeProviderID (machineName : String) : String :=
  if machineName = "" then "" else ProviderName ++ "://" ++ machineName

/-! ### Network construction (`buildNetworks` in `util.go`) -/

/-- `api.NetworkSpec` from `pkg/kubevirt/apis/provider_spec.go`. -/
structure NetworkSpec where
  name : String
  default : Bool
deriving DecidableEq

/-- The only interface binding method used by the builder (`kubevirtv1.InterfaceBridge`). -/
inductive InterfaceBindingMethod where
  | bridge
deriving DecidableEq

/-- `kubevirtv1.Interface`, restricted to the fields the builder populates. -/
structure Interface where
  name : String
  interfaceBindingMethod : InterfaceBindingMethod
deriving DecidableEq

/-- `kubevirtv1.NetworkSource`: either the pod network or a Multus network
carrying the network name and the default flag. -/
inductive NetworkSource where
  | pod
  | multus (networkName : String) (default : Bool)
deriving DecidableEq

/-- `kubevirtv1.Network`, restricted to the fields the builder populates. -/
structure Network where
  name : String
  networkSource : NetworkSource
deriving DecidableEq

/-- The static cloud-init network data emitted by `buildNetworks`. -/
def networkDataDHCP : String :=
  "version: 2\nethernets:\n  id0:\n    match:\n      name: \"e*\"\n    dhcp4: true\n"

/-- `buildNetworks` from `util.go`: an empty descriptor list yields empty
results; otherwise, when no descriptor is flagged default, a pod-network
interface/network pair named `default` is emitted first, and then every
descriptor `i` is emitted as a pair named `net<i>` with bridge binding and a
Multus source relaying the descriptor's name and default flag. -/
def buildNetworks (networkSpecs : List NetworkSpec) :
    List Interface × List Network × String :=
  if networkSpecs.length = 0 then ([], [], "")
  else
    let hasDefault := networkSpecs.any fun s => s.default
    let baseInterfaces : List Interface :=
      if hasDefault then [] else [{ name := "default", interfaceBindingMethod := .bridge }]
    let baseNets : List Network :=
      if hasDefault then [] else [{ name := "default", networkSource := .pod }]
    let interfaces := baseInterfaces ++ networkSpecs.enum.map fun p =>
      { name := "net" ++ itoa p.1, interfaceBindingMethod := InterfaceBindingMethod.bridge }
    let nets := baseNets ++ networkSpecs.enum.map fun p =>
      { name := "net" ++ itoa p.1, networkSource := NetworkSource.multus p.2.name p.2.default }
    (interfaces, nets, networkDataDHCP)

/-! ### Error taxonomy (`pkg/kubevirt/errors/custom_errors.go`) -/

/-- The engine's error values: the typed `MachineNotFoundError` (carrying the
machine name and uuid fields of the Go struct), or an opaque wrapped error
carrying its message (any `fmt.Errorf` / API error). -/
inductive ProviderError where
  | machineNotFoundError (name : String) (machineID : String)
  | wrappedError (msg : String)
deriving DecidableEq

/-- `errors.IsMachineNotFoundError`: a type switch that is true exactly on
`*MachineNotFoundError`. -/
def IsMachineNotFoundError : ProviderError → Bool
  | .machineNotFoundError _ _ => true
  | _ => false

/-! ### The remote client and the VM model (`pkg/kubevirt/core/core.go`) -/

/-- `kubevirtv1.VirtualMachineSpec`, restricted to the `Running` pointer field
that the lifecycle engine reads and writes. -/
structure VirtualMachineSpec where
  running : Option Bool
deriving DecidableEq

/-- `kubevirtv1.VirtualMachine`, restricted to the fields the lifecycle
engine uses: the object name and the spec. -/
structure VirtualMachine where
  name : String
  spec : VirtualMachineSpec
deriving DecidableEq

/-- Outcome of a `client.Get` call for a VM: the object, a Kubernetes
not-found error (`kerrors.IsNotFound`), or any other error. -/
inductive GetResult where
  | found (vm : VirtualMachine)
  | notFound
  | otherError (msg : String)
deriving DecidableEq

/-- Outcome of a `client.Delete` call: success, a Kubernetes not-found error,
or any other error. -/
inductive DeleteResult where
  | ok
  | notFound
  | otherError (msg : String)
deriving DecidableEq

/-- Outcome of a `client.Update` call: success, a Kubernetes conflict error
(`errors.IsConflict`), or any other error. -/
inductive UpdateResult where
  | ok
  | conflict
  | otherError (msg : String)
deriving DecidableEq

/-- The remote control-plane handle (`client.Client`), modelled by the
responses it gives: `get` is indexed by namespace and object name, `delete`
by the submitted object, and `update` by the submitted object and the attempt
number (so that a conflict on one attempt and success on a retry can be
expressed). -/
structure Client where
  get : String → String → GetResult
  delete : VirtualMachine → DeleteResult
  update : VirtualMachine → Nat → UpdateResult

/-- `getVM` from `core.go`: a not-found error from the client becomes the
typed `MachineNotFoundError` carrying the machine name (the uuid field is
left at its zero value), any other error is wrapped. -/
def getVM (c : Client) (machineName nspace : String) :
    Except ProviderError VirtualMachine :=
  match c.get nspace machineName with
  | .found vm => .ok vm
  | .notFound => .error (.machineNotFoundError machineName "")
  | .otherError msg => .error (.wrappedError ("failed to get VirtualMachine: " ++ msg))

/-- `DeleteMachine` from `core.go`: a lookup miss is absorbed (`("", nil)`),
the delete call is issued through `client.IgnoreNotFound`, so a not-found
error on the delete itself is also absorbed. Returns the Go
`(foundProviderID, err)` pair. -/
def DeleteMachine (c : Client) (machineName nspace : String) :
    String × Option ProviderError :=
  match getVM c machineName nspace with
  | .error e => if IsMachineNotFoundError e then ("", none) else ("", some e)
  | .ok vm =>
    match c.delete vm with
    | .otherError msg =>
      ("", some (.wrappedError ("failed to delete VirtualMachine " ++ machineName ++ ": " ++ msg)))
    | .ok => (encodeProviderID vm.name, none)
    | .notFound => (encodeProviderID vm.name, none)

/-- `GetMachineStatus` from `core.go`: propagate any lookup error, otherwise
return the provider ID of the found VM. -/
def GetMachineStatus (c : Client) (machineName nspace : String) :
    String × Option ProviderError :=
  match getVM c machineName nspace with
  | .error e => ("", some e)
  | .ok vm => (encodeProviderID vm.name, none)

/-- Outcome of `retry.RetryOnConflict`: success, retries exhausted (the last
conflict error is returned), or aborted by a non-conflict error. -/
inductive RetryOutcome where
  | success
  | exhausted
  | aborted (msg : String)
deriving DecidableEq

/-- `retry.RetryOnConflict` from client-go, specialised to the update
function: run up to `steps` attempts (attempt numbers starting at `start`);
success stops with `.success`, a conflict is retried, any other error aborts,
and running out of attempts yields `.exhausted` (client-go then returns the
last conflict error). The second component counts the update calls made. -/
def retryOnConflict (f : Nat → UpdateResult) : Nat → Nat → RetryOutcome × Nat
  | _, 0 => (.exhausted, 0)
  | start, steps + 1 =>
    match f start with
    | .ok => (.success, 1)
    | .conflict =>
      let r := retryOnConflict f (start + 1) steps
      (r.1, r.2 + 1)
    | .otherError msg => (.aborted msg, 1)

/-- `retry.DefaultBackoff.Steps` from client-go: at most 4 attempts. -/
def defaultBackoffSteps : Nat := 4

/-- The mutation `virtualMachine.Spec.Running = pointer.BoolPtr(false)`
performed by `ShutDownMachine`. -/
def withRunningFalse (vm : VirtualMachine) : VirtualMachine :=
  { vm with spec := { vm.spec with running := some false } }

/-- `ShutDownMachine` from `core.go`: look up the VM (propagating lookup
errors), set its running flag to false, and submit the update under
`retry.RetryOnConflict(retry.DefaultBackoff, ...)`; any retry failure is
wrapped. Besides the Go `(foundProviderID, err)` pair, the model returns the
list of objects submitted to `client.Update`, in call order (the conflict
error text of the Kubernetes API server is abbreviated to `"conflict"`). -/
def ShutDownMachine (c : Client) (machineName nspace : String) :
    (String × Option ProviderError) × List VirtualMachine :=
  match getVM c machineName nspace with
  | .error e => (("", some e), [])
  | .ok vm =>
    let updated := withRunningFalse vm
    let r := retryOnConflict (fun i => c.update updated i) 0 defaultBackoffSteps
    let calls := List.replicate r.2 updated
    match r.1 with
    | .success => ((encodeProviderID updated.name, none), calls)
    | .exhausted =>
      (("", some (.wrappedError "failed to update VirtualMachine running state: conflict")), calls)
    | .aborted msg =>
      (("", some (.wrappedError ("failed to update VirtualMachine running state: " ++ msg))), calls)

/-! ### Node affinity construction (`buildAffinity` in `util.go`) -/

/-- `defaultRegion` from `util.go`. -/
def defaultRegion : String := "default"

/-- `defaultZone` from `util.go`. -/
def defaultZone : String := "default"

/-- `corev1.NodeSelectorOperator`, restricted to the two operators the
builder emits. -/
inductive NodeSelectorOperator where
  | In
  | DoesNotExist
deriving DecidableEq

/-- `corev1.NodeSelectorRequirement`. -/
structure NodeSelectorRequirement where
  key : String
  operator : NodeSelectorOperator
  values : List String
deriving DecidableEq

/-- `corev1.NodeSelectorTerm`, restricted to match expressions. -/
structure NodeSelectorTerm where
  matchExpressions : List NodeSelectorRequirement
deriving DecidableEq

/-- `corev1.NodeSelector`. -/
structure NodeSelector where
  nodeSelectorTerms : List NodeSelectorTerm
deriving DecidableEq

/-- `corev1.NodeAffinity`, restricted to the required term the builder sets. -/
structure NodeAffinity where
  requiredDuringSchedulingIgnoredDuringExecution : Option NodeSelector
deriving DecidableEq

/-- `corev1.Affinity`, restricted to node affinity. -/
structure Affinity where
  nodeAffinity : Option NodeAffinity
deriving DecidableEq

/-- The affinity literal built by `buildAffinity` around its match
expressions: one required node-selector term holding them all. -/
def affinityWithExpressions (exprs : List NodeSelectorRequirement) : Affinity :=
  { nodeAffinity := some
      { requiredDuringSchedulingIgnoredDuringExecution := some
          { nodeSelectorTerms := [{ matchExpressions := exprs }] } } }

/-- `normalizeVersion` from `util.go`: drop every `v` character
(`strings.Replace(version, "v", "", -1)`), then cut at the first `-` or `+`
(`strings.IndexAny(v, "-+")`). -/
def normalizeVersion (version : String) : String :=
  ((version.data.filter fun c => c != 'v').takeWhile fun c => c != '-' && c != '+').asString

/-- Decimal parsing of one version component, modelling `strconv.ParseInt`
on the numeric strings accepted by the semver library. -/
def parseNumber (s : String) : Option Nat :=
  if !s.data.isEmpty && s.data.all Char.isDigit then
    some (s.data.foldl (fun n c => n * 10 + (c.toNat - 48)) 0)
  else none

/-- `strings.Split(s, ".")` on character lists. -/
def splitDotAux : List Char → List Char → List (List Char)
  | [], acc => [acc.reverse]
  | c :: rest, acc =>
    if c = '.' then acc.reverse :: splitDotAux rest [] else splitDotAux rest (c :: acc)

/-- `strings.Split(s, ".")`. -/
def splitDots (s : String) : List String :=
  (splitDotAux s.data []).map List.asString

/-- `semver.MustParse` from github.com/Masterminds/semver, for the inputs
reachable here (no prerelease or metadata survives `normalizeVersion`):
one to three dot-separated numeric components, missing ones defaulting to
zero; `none` models the parse failure on which `MustParse` panics. -/
def parseSemver (s : String) : Option (Nat × Nat × Nat) :=
  match (splitDots s).map parseNumber with
  | [some a] => some (a, 0, 0)
  | [some a, some b] => some (a, b, 0)
  | [some a, some b, some c] => some (a, b, c)
  | _ => none

/-- The check of the semver constraint `< 1.17` on a parsed version:
lexicographically below `1.17.0`. -/
def versionBelow117 (v : Nat × Nat × Nat) : Bool :=
  v.1 < 1 || (v.1 == 1 && v.2.1 < 17)

/-- `corev1.LabelZoneRegion` (k8s.io/api v0.17). -/
def labelZoneRegion : String := "failure-domain.beta.kubernetes.io/region"

/-- `corev1.LabelZoneFailureDomain` (k8s.io/api v0.17). -/
def labelZoneFailureDomain : String := "failure-domain.beta.kubernetes.io/zone"

/-- The topology region label used from Kubernetes 1.17 on. -/
def labelTopologyRegion : String := "topology.kubernetes.io/region"

/-- The topology zone label used from Kubernetes 1.17 on. -/
def labelTopologyZone : String := "topology.kubernetes.io/zone"

/-- `getRegionAndZoneLabels` from `util.go`: the legacy failure-domain label
keys for normalized cluster versions below 1.17, the topology label keys
otherwise; `none` models the `MustParse` panic on an unparseable version. -/
def getRegionAndZoneLabels (k8sVersion : String) : Option (String × String) :=
  (parseSemver (normalizeVersion k8sVersion)).map fun v =>
    if versionBelow117 v then (labelZoneRegion, labelZoneFailureDomain)
    else (labelTopologyRegion, labelTopologyZone)

/-- `buildAffinity` from `util.go` (final revision: a single zone value).
An empty region yields no affinity (`some none`); otherwise one required
node-selector term is built whose region expression is `DoesNotExist` for the
literal region `"default"` and `In [region]` otherwise, followed by the
analogous zone expression when the zone is non-empty. The outer `Option`
models the `MustParse` panic on an unparseable cluster version. -/
def buildAffinity (region zone k8sVersion : String) : Option (Option Affinity) :=
  if region = "" then some none
  else
    match getRegionAndZoneLabels k8sVersion with
    | none => none
    | some (regionLabel, zoneLabel) =>
      let regionExprs : List NodeSelectorRequirement :=
        if region != defaultRegion then
          [{ key := regionLabel, operator := .In, values := [region] }]
        else
          [{ key := regionLabel, operator := .DoesNotExist, values := [] }]
      let allExprs : List NodeSelectorRequirement :=
        if zone != "" then
          regionExprs ++
            (if zone != defaultZone then
              [{ key := zoneLabel, operator := .In, values := [zone] }]
            else
              [{ key := zoneLabel, operator := .DoesNotExist, values := [] }])
        else regionExprs
      some (some (affinityWithExpressions allExprs))

/-! ### Cloud-init SSH key merge (`addUserSSHKeysToUserData` in `util.go`) -/

/-- `addUserSSHKeysToUserData` from `util.go` (final revision): an empty key
list returns the user data unchanged; if the user data already contains the
`ssh_authorized_keys:` marker the call fails with an empty result string;
otherwise a YAML block listing each trimmed key is appended. The result is
the Go `(string, error)` pair. -/
def addUserSSHKeysToUserData (userData : String) (sshKeys : List String) :
    String × Option String :=
  if sshKeys.length = 0 then (userData, none)
  else if goContains userData "ssh_authorized_keys:" then
    ("", some "userData already contains key `ssh_authorized_keys`")
  else
    (userData ++ "\nssh_authorized_keys:\n" ++
      String.join (sshKeys.map fun sshKey => "- " ++ goTrimSpace sshKey ++ "\n"), none)

/-! ### VM labels and the user-data secret name (`CreateMachine` in `core.go`) -/

/-- Lookup in a Go map modelled as an association list. -/
def mapLookup (m : List (String × String)) (k : String) : Option String :=
  (m.find? fun p => p.1 == k).map fun p => p.2

/-- Go map assignment `m[k] = v`: any previous binding of `k` is replaced. -/
def mapInsert (m : List (String × String)) (k v : String) : List (String × String) :=
  (m.filter fun p => p.1 != k) ++ [(k, v)]

/-- The label map built by `CreateMachine`: start from the spec's tag map
(or an empty map when there are no tags) and assign
`vmLabels["kubevirt.io/vm"] = machineName`. -/
def buildVMLabels (tags : List (String × String)) (machineName : String) :
    List (String × String) :=
  mapInsert tags "kubevirt.io/vm" machineName

/-- The user-data secret name generated by `CreateMachine`:
`fmt.Sprintf("userdata-%s-%s", machineName, strconv.Itoa(int(time.Now().Unix())))`,
with the clock reading (whole Unix seconds) made an explicit argument. -/
def userdataSecretName (machineName : String) (unixTime : Nat) : String :=
  "userdata-" ++ machineName ++ "-" ++ itoa unixTime

/-! ### Concrete fixtures used to instantiate the theorems -/

/-- A concrete VM used as a remote object in the fixtures. -/
def vm1 : VirtualMachine := { name := "vm-1", spec := { running := some true } }

/-- A client with no remote VMs. -/
def clientAbsent : Client :=
  { get := fun _ _ => .notFound, delete := fun _ => .ok, update := fun _ _ => .ok }

/-- A client holding `vm1`, whose delete call races with a concurrent
deletion and reports not-found. -/
def clientRace : Client :=
  { get := fun _ n => if n = "vm-1" then .found vm1 else .notFound
    delete := fun _ => .notFound
    update := fun _ _ => .ok }

/-- A client holding `vm1`, whose first update attempt reports a conflict
and whose second attempt succeeds. -/
def clientConflictThenOk : Client :=
  { get := fun _ n => if n = "vm-1" then .found vm1 else .notFound
    delete := fun _ => .ok
    update := fun _ i => if i = 0 then .conflict else .ok }

/-! ### Auxiliary lemmas -/

/-- Unfolding a map lookup over a cons cell. -/
theorem mapLookup_cons (a : String × String) (t : List (String × String)) (k' : String) :
    mapLookup (a :: t) k' = if a.1 = k' then some a.2 else mapLookup t k' := by
  by_cases h : a.1 = k' <;> simp [mapLookup, List.find?_cons, h]

/-- Lookup after a Go map assignment: the assigned key reads back the new
value, every other key is unaffected. -/
theorem mapLookup_mapInsert (m : List (String × String)) (k v k' : String) :
    mapLookup (mapInsert m k v) k' = if k' = k then some v else mapLookup m k' := by
  induction m with
  | nil =>
    by_cases h : k' = k
    · subst h
      simp [mapInsert, mapLookup_cons, mapLookup]
    · simp [mapInsert, mapLookup_cons, mapLookup, h, Ne.symm h]
  | cons a t ih =>
    by_cases hak : a.1 = k
    · have hf : (a.1 != k) = false := by simp [hak]
      by_cases h : k' = k
      · subst h
        simp [mapInsert, List.filter_cons, hf] at ih ⊢
        simpa using ih
      · have hne : a.1 ≠ k' := by rw [hak]; exact fun hh => h hh.symm
        simp [mapInsert, List.filter_cons, hf, h, mapLookup_cons, hne] at ih ⊢
        simpa using ih
    · have ht : (a.1 != k) = true := by simp [hak]
      by_cases h : a.1 = k'
      · have hk' : k' ≠ k := fun hh => hak (by rw [h, hh])
        simp [mapInsert, List.filter_cons, ht, mapLookup_cons, h, hk']
      · simp [mapInsert, List.filter_cons, ht, mapLookup_cons, h] at ih ⊢
        simpa using ih

/-- `retryOnConflict` succeeds as soon as an attempt within the step budget
returns ok, after any number of leading conflicts; it makes `j + 1` calls. -/
theorem retryOnConflict_success (f : Nat → UpdateResult) :
    ∀ steps j start : Nat, j < steps →
    (∀ i, i < j → f (start + i) = .conflict) →
    f (start + j) = .ok →
    retryOnConflict f start steps = (.success, j + 1) := by
  intro steps
  induction steps with
  | zero => exact fun j start hj _ _ => absurd hj (Nat.not_lt_zero j)
  | succ n ihn =>
    intro j start hj hc hok
    cases j with
    | zero =>
      have h0 : f start = .ok := by simpa using hok
      simp [retryOnConflict, h0]
    | succ m =>
      have h0 : f start = .conflict := by simpa using hc 0 (Nat.succ_pos m)
      have hrec := ihn m (start + 1) (Nat.lt_of_succ_lt_succ hj)
        (fun i hi => by
          have := hc (i + 1) (Nat.succ_lt_succ hi)
          rwa [show start + (i + 1) = start + 1 + i by omega] at this)
        (by
          have := hok
          rwa [show start + (m + 1) = start + 1 + m by omega] at this)
      simp [retryOnConflict, h0, hrec]

/-- `retryOnConflict` aborts on the first non-conflict error, after any
number of leading conflicts; it makes `j + 1` calls. -/
theorem retryOnConflict_aborted (f : Nat → UpdateResult) (msg : String) :
    ∀ steps j start : Nat, j < steps →
    (∀ i, i < j → f (start + i) = .conflict) →
    f (start + j) = .otherError msg →
    retryOnConflict f start steps = (.aborted msg, j + 1) := by
  intro steps
  induction steps with
  | zero => exact fun j start hj _ _ => absurd hj (Nat.not_lt_zero j)
  | succ n ihn =>
    intro j start hj hc herr
    cases j with
    | zero =>
      have h0 : f start = .otherError msg := by simpa using herr
      simp [retryOnConflict, h0]
    | succ m =>
      have h0 : f start = .conflict := by simpa using hc 0 (Nat.succ_pos m)
      have hrec := ihn m (start + 1) (Nat.lt_of_succ_lt_succ hj)
        (fun i hi => by
          have := hc (i + 1) (Nat.succ_lt_succ hi)
          rwa [show start + (i + 1) = start + 1 + i by omega] at this)
        (by
          have := herr
          rwa [show start + (m + 1) = start + 1 + m by omega] at this)
      simp [retryOnConflict, h0, hrec]

/-- When every attempt within the step budget conflicts, `retryOnConflict`
exhausts its retries after `steps` calls. -/
theorem retryOnConflict_exhausted (f : Nat → UpdateResult) :
    ∀ steps start : Nat,
    (∀ i, i < steps → f (start + i) = .conflict) →
    retryOnConflict f start steps = (.exhausted, steps) := by
  intro steps
  induction steps with
  | zero => intro start _; rfl
  | succ n ihn =>
    intro start hc
    have h0 : f start = .conflict := by simpa using hc 0 (Nat.succ_pos n)
    have hrec := ihn (start + 1) (fun i hi => by
      have := hc (i + 1) (Nat.succ_lt_succ hi)
      rwa [show start + (i + 1) = start + 1 + i by omega] at this)
    simp [retryOnConflict, h0, hrec]

/-- Character codes of decimal digits read back their digit value. -/
theorem digitChar_toNat (d : Nat) (hd : d < 10) : (Char.ofNat (48 + d)).toNat = 48 + d := by
  interval_cases d <;> decide

/-- The rendered characters of a non-zero number are its decimal digits,
most significant first. -/
theorem itoa_data (n : Nat) (hn : n ≠ 0) :
    (itoa n).data = (Nat.digits 10 n).reverse.map fun d => Char.ofNat (48 + d) := by
  rw [itoa, if_neg hn]
  rfl

/-- Mapping digit values (written decimally) to characters is injective. -/
theorem map_digitChar_inj (l₁ l₂ : List Nat)
    (h₁ : ∀ d ∈ l₁, d < 10) (h₂ : ∀ d ∈ l₂, d < 10)
    (h : l₁.map (fun d => Char.ofNat (48 + d)) = l₂.map fun d => Char.ofNat (48 + d)) :
    l₁ = l₂ := by
  have hmap := congrArg (List.map Char.toNat) h
  rw [List.map_map, List.map_map] at hmap
  have e₁ : l₁.map (Char.toNat ∘ fun d => Char.ofNat (48 + d)) = l₁.map fun d => 48 + d :=
    List.map_congr_left fun d hd => digitChar_toNat d (h₁ d hd)
  have e₂ : l₂.map (Char.toNat ∘ fun d => Char.ofNat (48 + d)) = l₂.map fun d => 48 + d :=
    List.map_congr_left fun d hd => digitChar_toNat d (h₂ d hd)
  rw [e₁, e₂] at hmap
  exact List.map_injective_iff.mpr (fun x y hxy => by omega) hmap

/-- `itoa` is injective: distinct numbers render to distinct strings. -/
theorem itoa_injective : Function.Injective itoa := by
  intro a b h
  by_cases ha : a = 0 <;> by_cases hb : b = 0
  · exact ha.trans hb.symm
  · exfalso
    apply hb
    have hd := congrArg String.data h
    rw [itoa_data b hb, ha] at hd
    have hlen := congrArg List.length hd
    simp only [List.length_map, List.length_reverse] at hlen
    obtain ⟨d, hdig⟩ := List.length_eq_one.mp hlen.symm
    have hd10 : d < 10 :=
      Nat.digits_lt_base (by norm_num) (by rw [hdig]; exact List.mem_singleton_self d)
    rw [hdig] at hd
    simp only [List.reverse_singleton, List.map_cons, List.map_nil] at hd
    have hchar : ('0' : Char) = Char.ofNat (48 + d) := by
      have : (itoa 0).data = ['0'] := rfl
      rw [this] at hd
      exact List.head_eq_of_cons_eq hd
    have h48 : 48 = 48 + d := by
      have := congrArg Char.toNat hchar
      rwa [digitChar_toNat d hd10] at this
    have hd0 : d = 0 := by omega
    have hof := Nat.ofDigits_digits 10 b
    rw [hdig, hd0] at hof
    simpa using hof.symm
  · exfalso
    apply ha
    have hd := congrArg String.data h.symm
    rw [itoa_data a ha, hb] at hd
    have hlen := congrArg List.length hd
    simp only [List.length_map, List.length_reverse] at hlen
    obtain ⟨d, hdig⟩ := List.length_eq_one.mp hlen.symm
    have hd10 : d < 10 :=
      Nat.digits_lt_base (by norm_num) (by rw [hdig]; exact List.mem_singleton_self d)
    rw [hdig] at hd
    simp only [List.reverse_singleton, List.map_cons, List.map_nil] at hd
    have hchar : ('0' : Char) = Char.ofNat (48 + d) := by
      have : (itoa 0).data = ['0'] := rfl
      rw [this] at hd
      exact List.head_eq_of_cons_eq hd
    have h48 : 48 = 48 + d := by
      have := congrArg Char.toNat hchar
      rwa [digitChar_toNat d hd10] at this
    have hd0 : d = 0 := by omega
    have hof := Nat.ofDigits_digits 10 a
    rw [hdig, hd0] at hof
    simpa using hof.symm
  · have hd := congrArg String.data h
    rw [itoa_data a ha, itoa_data b hb] at hd
    have hrev : (Nat.digits 10 a).reverse = (Nat.digits 10 b).reverse :=
      map_digitChar_inj _ _
        (fun d hdm => Nat.digits_lt_base (by norm_num) (List.mem_reverse.mp hdm))
        (fun d hdm => Nat.digits_lt_base (by norm_num) (List.mem_reverse.mp hdm)) hd
    have hdig : Nat.digits 10 a = Nat.digits 10 b := List.reverse_injective hrev
    have := congrArg (Nat.ofDigits 10) hdig
    rwa [Nat.ofDigits_digits, Nat.ofDigits_digits] at this

/-! ### Claim theorems -/

/-- C10: `encodeProviderID` maps the empty machine name to the empty string
(not to a bare provider prefix), and every non-empty machine name to the
provider name followed by the `://` separator and the name. As a Lean
function of its argument it is pure and deterministic by construction. -/
theorem encodeProviderID_spec :
    encodeProviderID "" = "" ∧
    ∀ machineName : String, machineName ≠ "" →
      encodeProviderID machineName = "kubevirt://" ++ machineName := by
  refine ⟨rfl, fun machineName h => ?_⟩
  rw [encodeProviderID, if_neg h]
  rfl

/-- C10 witness: `encodeProviderID` evaluated on a concrete non-empty name. -/
theorem encodeProviderID_spec_witness :
    encodeProviderID "vm-1" = "kubevirt://vm-1" :=
  encodeProviderID_spec.2 "vm-1" (by decide)

/-- C2: when the lookup misses, `DeleteMachine` returns `("", nil)`; when the
VM is found but the delete call itself reports not-found (lookup/delete
race), `DeleteMachine` still returns the provider ID with no error. -/
theorem DeleteMachine_absent_and_race (c : Client) (machineName nspace : String) :
    (c.get nspace machineName = .notFound →
      DeleteMachine c machineName nspace = ("", none)) ∧
    ∀ vm : VirtualMachine, c.get nspace machineName = .found vm →
      c.delete vm = .notFound →
      DeleteMachine c machineName nspace = (encodeProviderID vm.name, none) := by
  constructor
  · intro h
    simp [DeleteMachine, getVM, h, IsMachineNotFoundError]
  · intro vm hg hd
    simp [DeleteMachine, getVM, hg, hd]

/-- C2 witness: a delete of an absent machine, and a delete racing with a
concurrent deletion, both evaluated on concrete clients. -/
theorem DeleteMachine_absent_and_race_witness :
    DeleteMachine clientAbsent "vm-1" "ns" = ("", none) ∧
    DeleteMachine clientRace "vm-1" "ns" = ("kubevirt://vm-1", none) :=
  ⟨(DeleteMachine_absent_and_race clientAbsent "vm-1" "ns").1 rfl,
   (DeleteMachine_absent_and_race clientRace "vm-1" "ns").2 vm1 rfl rfl⟩

/-- C3: a lookup miss surfaces from `GetMachineStatus` (and
`ShutDownMachine`) as the typed `MachineNotFoundError` carrying the requested
machine name; `IsMachineNotFoundError` is true on it and false on every other
error; a present VM yields its provider ID with no error. -/
theorem GetMachineStatus_typed_notFound (c : Client) (machineName nspace : String) :
    (c.get nspace machineName = .notFound →
      GetMachineStatus c machineName nspace =
        ("", some (.machineNotFoundError machineName "")) ∧
      (ShutDownMachine c machineName nspace).1 =
        ("", some (.machineNotFoundError machineName ""))) ∧
    (∀ vm : VirtualMachine, c.get nspace machineName = .found vm →
      GetMachineStatus c machineName nspace = (encodeProviderID vm.name, none)) ∧
    IsMachineNotFoundError (.machineNotFoundError machineName "") = true ∧
    ∀ msg : String, IsMachineNotFoundError (.wrappedError msg) = false := by
  refine ⟨fun h => ⟨?_, ?_⟩, fun vm hg => ?_, rfl, fun msg => rfl⟩
  · simp [GetMachineStatus, getVM, h]
  · simp [ShutDownMachine, getVM, h]
  · simp [GetMachineStatus, getVM, hg]

/-- C3 witness: status of an absent machine yields the typed not-found error,
status of a present machine yields its provider ID. -/
theorem GetMachineStatus_typed_notFound_witness :
    GetMachineStatus clientAbsent "vm-1" "ns" =
      ("", some (.machineNotFoundError "vm-1" "")) ∧
    GetMachineStatus clientRace "vm-1" "ns" = ("kubevirt://vm-1", none) :=
  ⟨((GetMachineStatus_typed_notFound clientAbsent "vm-1" "ns").1 rfl).1,
   (GetMachineStatus_typed_notFound clientRace "vm-1" "ns").2.1 vm1 rfl⟩

/-- C9: the label map submitted by `CreateMachine` binds `kubevirt.io/vm` to
the machine name even when the tag map contains that key, and leaves every
other tag binding unchanged. -/
theorem CreateMachine_vm_label (tags : List (String × String)) (machineName : String) :
    mapLookup (buildVMLabels tags machineName) "kubevirt.io/vm" = some machineName ∧
    ∀ k : String, k ≠ "kubevirt.io/vm" →
      mapLookup (buildVMLabels tags machineName) k = mapLookup tags k := by
  constructor
  · rw [buildVMLabels, mapLookup_mapInsert, if_pos rfl]
  · intro k hk
    rw [buildVMLabels, mapLookup_mapInsert, if_neg hk]

/-- C9 witness: a tag map that itself binds `kubevirt.io/vm` is overridden by
the machine name, and an unrelated tag survives. -/
theorem CreateMachine_vm_label_witness :
    mapLookup (buildVMLabels [("kubevirt.io/vm", "stale"), ("role", "node")] "vm-1")
      "kubevirt.io/vm" = some "vm-1" ∧
    mapLookup (buildVMLabels [("kubevirt.io/vm", "stale"), ("role", "node")] "vm-1")
      "role" = some "node" := by
  have h := CreateMachine_vm_label [("kubevirt.io/vm", "stale"), ("role", "node")] "vm-1"
  exact ⟨h.1, (h.2 "role" (by decide)).trans (by decide)⟩

/-- C6: `addUserSSHKeysToUserData` fails (with an empty result string) on any
user data already containing the `ssh_authorized_keys:` marker when the key
list is non-empty, and returns the user data unchanged with no error when the
key list is empty. -/
theorem addUserSSHKeysToUserData_spec (userData : String) (sshKeys : List String) :
    (goContains userData "ssh_authorized_keys:" = true → sshKeys ≠ [] →
      addUserSSHKeysToUserData userData sshKeys =
        ("", some "userData already contains key `ssh_authorized_keys`")) ∧
    addUserSSHKeysToUserData userData [] = (userData, none) := by
  constructor
  · intro hc hk
    have hlen : ¬sshKeys.length = 0 := by
      simpa [List.length_eq_zero] using hk
    rw [addUserSSHKeysToUserData, if_neg hlen, if_pos hc]
  · rfl

/-- C6 witness: the guard fires on concrete user data containing the marker
with one key, and a concrete call with no keys is the identity. -/
theorem addUserSSHKeysToUserData_spec_witness :
    addUserSSHKeysToUserData "#cloud-config\nssh_authorized_keys:\n- k1" ["k2"] =
      ("", some "userData already contains key `ssh_authorized_keys`") ∧
    addUserSSHKeysToUserData "#cloud-config" [] = ("#cloud-config", none) :=
  ⟨(addUserSSHKeysToUserData_spec "#cloud-config\nssh_authorized_keys:\n- k1" ["k2"]).1
      (by decide) (by decide),
   (addUserSSHKeysToUserData_spec "#cloud-config" []).2⟩

/-- C1 counterexample: the empty descriptor list vacuously has no descriptor
with `default = true`, yet `buildNetworks` emits no pair at all — neither the
claimed `N + 1 = 1` pairs nor a leading pod-network pair named `default`. -/
theorem buildNetworks_empty_counterexample :
    (buildNetworks ([] : List NetworkSpec)).1.length = 0 ∧
    (buildNetworks ([] : List NetworkSpec)).2.1.length = 0 ∧
    (buildNetworks ([] : List NetworkSpec)).1.length ≠ ([] : List NetworkSpec).length + 1 ∧
    (buildNetworks ([] : List NetworkSpec)).1.head? ≠
      some { name := "default", interfaceBindingMethod := .bridge } := by
  refine ⟨rfl, rfl, by decide, by decide⟩

/-- C1 (amended to non-empty descriptor lists): for every non-empty list with
no default descriptor, `buildNetworks` emits the pod-network interface and
network pair named `default` first and `N + 1` pairs in total; with exactly
one default descriptor it emits `N` pairs and no pod-network pair. -/
theorem buildNetworks_pair_counts (specs : List NetworkSpec) (h : specs ≠ []) :
    ((specs.any fun s => s.default) = false →
      (buildNetworks specs).1.length = specs.length + 1 ∧
      (buildNetworks specs).2.1.length = specs.length + 1 ∧
      (buildNetworks specs).1.head? =
        some { name := "default", interfaceBindingMethod := .bridge } ∧
      (buildNetworks specs).2.1.head? =
        some { name := "default", networkSource := .pod }) ∧
    ((specs.countP fun s => s.default) = 1 →
      (buildNetworks specs).1.length = specs.length ∧
      (buildNetworks specs).2.1.length = specs.length ∧
      ∀ net ∈ (buildNetworks specs).2.1, net.networkSource ≠ .pod) := by
  have hlen : ¬specs.length = 0 := by simpa [List.length_eq_zero] using h
  constructor
  · intro hno
    refine ⟨?_, ?_, ?_, ?_⟩
    · simp [buildNetworks, hlen, hno, List.enum_length]
    · simp [buildNetworks, hlen, hno, List.enum_length]
    · simp [buildNetworks, hlen, hno]
    · simp [buildNetworks, hlen, hno]
  · intro hone
    have hany : (specs.any fun s => s.default) = true := by
      by_contra hno
      rw [Bool.not_eq_true] at hno
      have hzero : (specs.countP fun s => s.default) = 0 := by
        rw [List.countP_eq_zero]
        intro a ha
        exact List.any_eq_false.mp hno a ha
      omega
    refine ⟨?_, ?_, ?_⟩
    · simp [buildNetworks, hlen, hany, List.enum_length]
    · simp [buildNetworks, hlen, hany, List.enum_length]
    · intro net hn
      have e2 : (buildNetworks specs).2.1 = specs.enum.map fun p =>
          ({ name := "net" ++ itoa p.1,
             networkSource := .multus p.2.name p.2.default } : Network) := by
        simp [buildNetworks, hlen, hany]
      rw [e2] at hn
      obtain ⟨p, _, rfl⟩ := List.mem_map.mp hn
      simp

/-- C1 witness: one non-default descriptor yields two pairs led by the
pod-network pair; one default descriptor yields a single pair. -/
theorem buildNetworks_pair_counts_witness :
    (buildNetworks [{ name := "n1", default := false }]).1.length = 2 ∧
    (buildNetworks [{ name := "n1", default := false }]).1.head? =
      some { name := "default", interfaceBindingMethod := .bridge } ∧
    (buildNetworks [{ name := "n1", default := true }]).1.length = 1 := by
  have h1 := (buildNetworks_pair_counts [{ name := "n1", default := false }] (by decide)).1
    (by decide)
  have h2 := (buildNetworks_pair_counts [{ name := "n1", default := true }] (by decide)).2
    (by decide)
  exact ⟨h1.1, h1.2.2.1, h2.1⟩

/-- C7: after the optionally synthesized pod-network pair, the descriptors
are emitted in input order, the `i`-th one under the generated name `net<i>`
with bridge binding, its network source a Multus network relaying the
descriptor's name and default flag unchanged. -/
theorem buildNetworks_descriptor_names (specs : List NetworkSpec) :
    (buildNetworks specs).1.drop (if (specs.any fun s => s.default) = true then 0 else 1) =
      (specs.enum.map fun p =>
        ({ name := "net" ++ itoa p.1, interfaceBindingMethod := .bridge } : Interface)) ∧
    (buildNetworks specs).2.1.drop (if (specs.any fun s => s.default) = true then 0 else 1) =
      specs.enum.map fun p =>
        ({ name := "net" ++ itoa p.1,
           networkSource := .multus p.2.name p.2.default } : Network) := by
  cases specs with
  | nil => constructor <;> simp [buildNetworks]
  | cons a t =>
    by_cases hd : ((a :: t).any fun s => s.default) = true
    · constructor <;> simp [buildNetworks, hd]
    · have hd' : ((a :: t).any fun s => s.default) = false := by simpa using hd
      constructor <;> simp [buildNetworks, hd']

/-- C4: for an existing VM, every object `ShutDownMachine` submits to Update
has `spec.running = false`; a conflict on an attempt is retried within the
bounded budget, and a later successful attempt yields the provider ID with no
error; a non-conflict error, or exhausting all attempts on conflicts, yields
a wrapped error. -/
theorem ShutDownMachine_conflict_retry (c : Client) (machineName nspace : String)
    (vm : VirtualMachine) (hget : c.get nspace machineName = .found vm) :
    (∀ u ∈ (ShutDownMachine c machineName nspace).2, u.spec.running = some false) ∧
    (∀ j : Nat, j < defaultBackoffSteps →
      (∀ i, i < j → c.update (withRunningFalse vm) i = .conflict) →
      c.update (withRunningFalse vm) j = .ok →
      (ShutDownMachine c machineName nspace).1 = (encodeProviderID vm.name, none)) ∧
    (∀ (j : Nat) (msg : String), j < defaultBackoffSteps →
      (∀ i, i < j → c.update (withRunningFalse vm) i = .conflict) →
      c.update (withRunningFalse vm) j = .otherError msg →
      (ShutDownMachine c machineName nspace).1 =
        ("", some (.wrappedError ("failed to update VirtualMachine running state: " ++ msg)))) ∧
    ((∀ i, i < defaultBackoffSteps → c.update (withRunningFalse vm) i = .conflict) →
      (ShutDownMachine c machineName nspace).1 =
        ("", some (.wrappedError "failed to update VirtualMachine running state: conflict"))) := by
  refine ⟨?_, ?_, ?_, ?_⟩
  · intro u hu
    rcases hr : (retryOnConflict (fun i => c.update (withRunningFalse vm) i) 0
        defaultBackoffSteps).1 with _ | _ | msg
    all_goals
      simp only [ShutDownMachine, getVM, hget, hr] at hu
    all_goals
      simp only [List.mem_replicate] at hu
    all_goals
      rw [hu.2]
    all_goals
      simp [withRunningFalse]
  · intro j hj hc hok
    have hr := retryOnConflict_success (fun i => c.update (withRunningFalse vm) i)
      defaultBackoffSteps j 0 hj (fun i hi => by simpa using hc i hi) (by simpa using hok)
    simp only [ShutDownMachine, getVM, hget, hr]
    simp [withRunningFalse]
  · intro j msg hj hc herr
    have hr := retryOnConflict_aborted (fun i => c.update (withRunningFalse vm) i) msg
      defaultBackoffSteps j 0 hj (fun i hi => by simpa using hc i hi) (by simpa using herr)
    simp only [ShutDownMachine, getVM, hget, hr]
  · intro hc
    have hr := retryOnConflict_exhausted (fun i => c.update (withRunningFalse vm) i)
      defaultBackoffSteps 0 (fun i hi => by simpa using hc i hi)
    simp only [ShutDownMachine, getVM, hget, hr]

/-- C4 witness: on a concrete client whose first update attempt conflicts and
whose second succeeds, shutdown returns the provider ID with no error. -/
theorem ShutDownMachine_conflict_retry_witness :
    (ShutDownMachine clientConflictThenOk "vm-1" "ns").1 = ("kubevirt://vm-1", none) :=
  (ShutDownMachine_conflict_retry clientConflictThenOk "vm-1" "ns" vm1 rfl).2.1 1
    (by decide)
    (fun i hi => by
      have h0 : i = 0 := by omega
      rw [h0]
      rfl)
    rfl

/-- C5: for a non-empty region, `buildAffinity` emits a required
node-affinity term whose region expression is `DoesNotExist` exactly when the
region is the literal `default` and `In [region]` otherwise, followed (when a
zone is present) by the analogous zone expression; the label keys are the
legacy failure-domain keys for normalized cluster versions below 1.17 and the
topology keys for 1.17 and above. -/
theorem buildAffinity_region_zone (region zone ver : String) (maj minr pat : Nat)
    (hr : region ≠ "") (hp : parseSemver (normalizeVersion ver) = some (maj, minr, pat)) :
    ∃ regionLabel zoneLabel : String,
      ((maj < 1 ∨ (maj = 1 ∧ minr < 17)) →
        regionLabel = "failure-domain.beta.kubernetes.io/region" ∧
        zoneLabel = "failure-domain.beta.kubernetes.io/zone") ∧
      (¬(maj < 1 ∨ (maj = 1 ∧ minr < 17)) →
        regionLabel = "topology.kubernetes.io/region" ∧
        zoneLabel = "topology.kubernetes.io/zone") ∧
      buildAffinity region zone ver = some (some (affinityWithExpressions (
        (if region = "default"
          then [{ key := regionLabel, operator := .DoesNotExist, values := [] }]
          else [{ key := regionLabel, operator := .In, values := [region] }]) ++
        (if zone = ""
          then []
          else if zone = "default"
            then [{ key := zoneLabel, operator := .DoesNotExist, values := [] }]
            else [{ key := zoneLabel, operator := .In, values := [zone] }])))) := by
  have hbool : versionBelow117 (maj, minr, pat) = true ↔
      (maj < 1 ∨ (maj = 1 ∧ minr < 17)) := by
    simp [versionBelow117]
  by_cases hv : versionBelow117 (maj, minr, pat) = true
  · have hvp := hbool.mp hv
    refine ⟨labelZoneRegion, labelZoneFailureDomain,
      fun _ => ⟨rfl, rfl⟩, fun hnot => absurd hvp hnot, ?_⟩
    have heq : getRegionAndZoneLabels ver =
        some (labelZoneRegion, labelZoneFailureDomain) := by
      rw [getRegionAndZoneLabels, hp]
      simp [hv]
    rw [buildAffinity, if_neg hr, heq]
    by_cases hreg : region = "default" <;> by_cases hz : zone = "" <;>
      by_cases hzd : zone = "default" <;>
      simp [defaultRegion, defaultZone, hreg, hz, hzd]
  · rw [Bool.not_eq_true] at hv
    have hvp : ¬(maj < 1 ∨ (maj = 1 ∧ minr < 17)) := by
      intro hcon
      have hcontr := hbool.mpr hcon
      rw [hv] at hcontr
      exact absurd hcontr (by decide)
    refine ⟨labelTopologyRegion, labelTopologyZone,
      fun hlt => absurd hlt hvp, fun _ => ⟨rfl, rfl⟩, ?_⟩
    have heq : getRegionAndZoneLabels ver =
        some (labelTopologyRegion, labelTopologyZone) := by
      rw [getRegionAndZoneLabels, hp]
      simp [hv]
    rw [buildAffinity, if_neg hr, heq]
    by_cases hreg : region = "default" <;> by_cases hz : zone = "" <;>
      by_cases hzd : zone = "default" <;>
      simp [defaultRegion, defaultZone, hreg, hz, hzd]

/-- C5 witness: region and zone `default` on cluster version `1.16` select
the legacy failure-domain keys, on `1.18` the topology keys, both with
`DoesNotExist` semantics. -/
theorem buildAffinity_region_zone_witness :
    buildAffinity "default" "default" "1.16" = some (some (affinityWithExpressions
      [{ key := "failure-domain.beta.kubernetes.io/region",
         operator := .DoesNotExist, values := [] },
       { key := "failure-domain.beta.kubernetes.io/zone",
         operator := .DoesNotExist, values := [] }])) ∧
    buildAffinity "default" "default" "1.18" = some (some (affinityWithExpressions
      [{ key := "topology.kubernetes.io/region",
         operator := .DoesNotExist, values := [] },
       { key := "topology.kubernetes.io/zone",
         operator := .DoesNotExist, values := [] }])) := by
  constructor
  · obtain ⟨rl, zl, hlt, _, he⟩ :=
      buildAffinity_region_zone "default" "default" "1.16" 1 16 0 (by decide) (by decide)
    obtain ⟨hrl, hzl⟩ := hlt (by omega)
    rw [he, hrl, hzl]
    decide
  · obtain ⟨rl, zl, _, hge, he⟩ :=
      buildAffinity_region_zone "default" "default" "1.18" 1 18 0 (by decide) (by decide)
    obtain ⟨hrl, hzl⟩ := hge (by omega)
    rw [he, hrl, hzl]
    decide

/-- C8 counterexample: two create attempts for the same machine name in the
same Unix second generate the same user-data secret name, so the generated
names are not distinct. -/
theorem userdataSecretName_same_second_collision :
    ¬ ([userdataSecretName "vm-1" 1600000000,
        userdataSecretName "vm-1" 1600000000] : List String).Nodup := by
  simp

/-- C8 (amended): the user-data secret name is
`userdata-<machineName>-<unix timestamp>`, and two create attempts for the
same machine name generate distinct names exactly when their Unix timestamps
(whole seconds) differ — attempts within the same second collide. -/
theorem userdataSecretName_distinct_iff (machineName : String) (t1 t2 : Nat) :
    userdataSecretName machineName t1 = "userdata-" ++ machineName ++ "-" ++ itoa t1 ∧
    (userdataSecretName machineName t1 = userdataSecretName machineName t2 ↔ t1 = t2) := by
  refine ⟨rfl, fun h => ?_, fun h => by rw [h]⟩
  have hd := congrArg String.data h
  rw [userdataSecretName, userdataSecretName] at hd
  repeat rw [String.data_append] at hd
  have hdata : (itoa t1).data = (itoa t2).data := List.append_cancel_left hd
  exact itoa_injective (String.ext hdata)

end MCMKubevirt
